import Mathlib

/-!
Shallow embedding of the `exat-etax` tax-document CLI (src/main.rs).

The program resolves a `since`/`until` date range into start-of-day and
end-of-day instants in a fixed UTC+7 offset, issues a form-encoded search
POST, re-projects the returned `reprintList` JSON array into a narrower
record shape, and optionally issues a multipart download POST whose ZIP
payload is written to a generated or user-supplied filename.

Instants (`DateTime<Utc>` in the source) are embedded as `Int` seconds
since the 1970-01-01 UTC epoch.  Calendar arithmetic delegated by the
source to the `chrono` crate (proleptic-Gregorian date-to-days
conversion and its inverse) is embedded with the standard civil-calendar
algorithms.  JSON values (`serde_json::Value`) are embedded as an
inductive `Json` type; `serde_json::from_str`, an external library
parser, is modelled by taking its outcome (`Except ParseError Json`) as
the input of the embedded `parse_search_response`.  The effectful parts
of `main` are embedded as a pure function from the command-line
arguments and an environment (today's date, the wall clock, the parsed
search response, the downloaded bytes) to a trace of observable effects
(HTTP requests, printed lines, file writes) plus an outcome.
-/

namespace Etax

/-- Civil calendar date (year, month, day), as produced by
`chrono::NaiveDate` accessors `year()`, `month()`, `day()`; the year is
signed, as in chrono's proleptic Gregorian calendar. -/
structure Civil where
  y : Int
  m : Nat
  d : Nat
deriving DecidableEq

/-- Number of days in a month of the proleptic Gregorian calendar,
including the leap-year rule, as enforced by `chrono::NaiveDate`
(divisibility tests on the signed year; Euclidean and truncated
remainder agree on `= 0` against a positive modulus). -/
def daysInMonth (y : Int) (m : Nat) : Nat :=
  if m = 2 then
    if y % 4 = 0 ∧ (y % 100 ≠ 0 ∨ y % 400 = 0) then 29 else 28
  else if m = 4 ∨ m = 6 ∨ m = 9 ∨ m = 11 then 30
  else 31

/-- Unicode `White_Space` test, as Rust's `char::is_whitespace` used by
the `trim_start` chrono applies before each numeric field. -/
def isUnicodeWs (c : Char) : Bool :=
  (9 ≤ c.toNat && c.toNat ≤ 13) || c.toNat == 32 || c.toNat == 133 ||
    c.toNat == 160 || c.toNat == 5760 ||
    (8192 ≤ c.toNat && c.toNat ≤ 8202) || c.toNat == 8232 ||
    c.toNat == 8233 || c.toNat == 8239 || c.toNat == 8287 ||
    c.toNat == 12288

/-- Leading-whitespace trimming (`str::trim_start`), applied by
chrono's parser in front of every numeric field. -/
def skipWs : List Char → List Char
  | [] => []
  | c :: rest => if isUnicodeWs c then skipWs rest else c :: rest

/-- Accumulator loop of chrono's `scan::number`: consumes up to `rem`
further leading decimal digits. -/
def scanDigitsAux : List Char → Nat → Nat → Nat × List Char
  | cs, 0, acc => (acc, cs)
  | [], _, acc => (acc, [])
  | c :: rest, rem + 1, acc =>
    if c.isDigit then scanDigitsAux rest rem (acc * 10 + (c.toNat - 48))
    else (acc, c :: rest)

/-- chrono's `scan::number(s, 1, maxDigits)`: consumes between 1 and
`maxDigits` leading decimal digits, failing when none is present. -/
def scanNumber (cs : List Char) (maxDigits : Nat) :
    Option (Nat × List Char) :=
  match cs with
  | [] => none
  | c :: rest =>
    if c.isDigit && maxDigits != 0 then
      some (scanDigitsAux (c :: rest) maxDigits 0)
    else none

/-- chrono's scan of a signed `%Y` field: after a leading `-` or `+`
sign the digit count is unbounded, otherwise at most 4 digits are
consumed. -/
def scanYear (cs : List Char) : Option (Int × List Char) :=
  match cs with
  | '-' :: rest =>
    (scanNumber rest rest.length).map (fun p => (-(p.1 : Int), p.2))
  | '+' :: rest =>
    (scanNumber rest rest.length).map (fun p => ((p.1 : Int), p.2))
  | _ => (scanNumber cs 4).map (fun p => ((p.1 : Int), p.2))

/-- Exact match of the literal `-` items of the format string (chrono
applies no trimming before literals). -/
def expectDash : List Char → Option (List Char)
  | '-' :: rest => some rest
  | _ => none

/-- Strict `%Y-%m-%d` parse, modelling
`chrono::NaiveDate::parse_from_str(date_str, "%Y-%m-%d")`: each numeric
field is scanned after whitespace trimming (`%Y` signed, at most 4
digits when unsigned; `%m` and `%d` at most 2 digits), the two `-`
literals must match exactly, the whole input must be consumed, and the
scanned year/month/day must form a valid `NaiveDate` (year within
chrono's `MIN_YEAR = -262144` / `MAX_YEAR = 262143`, month 1–12, day
within the month). -/
def parseYMD (s : String) : Option Civil := do
  let (y, r1) ← scanYear (skipWs s.data)
  let r2 ← expectDash r1
  let (m, r3) ← scanNumber (skipWs r2) 2
  let r4 ← expectDash r3
  let (d, r5) ← scanNumber (skipWs r4) 2
  if r5 = [] ∧ (-262144 : Int) ≤ y ∧ y ≤ 262143 ∧
      1 ≤ m ∧ m ≤ 12 ∧ 1 ≤ d ∧ d ≤ daysInMonth y m then
    some ⟨y, m, d⟩
  else none

/-- Days from the 1970-01-01 epoch to a civil date (standard
civil-from-days algorithm), modelling the date arithmetic `chrono`
performs when a `FixedOffset` local datetime is turned into an instant. -/
def daysFromCivil (c : Civil) : Int :=
  let y : Int := if c.m ≤ 2 then c.y - 1 else c.y
  let era : Int := (if 0 ≤ y then y else y - 399) / 400
  let yoe : Int := y - era * 400
  let mp : Int := ((c.m : Int) + 9) % 12
  let doy : Int := (153 * mp + 2) / 5 + (c.d : Int) - 1
  let doe : Int := yoe * 365 + yoe / 4 - yoe / 100 + doy
  era * 146097 + doe - 719468

/-- Inverse of `daysFromCivil` (standard days-to-civil algorithm), used
when an instant is re-rendered in the UTC+7 offset. Returns
(year, month, day) as integers. -/
def civilFromDays (z0 : Int) : Int × Int × Int :=
  let z : Int := z0 + 719468
  let era : Int := (if 0 ≤ z then z else z - 146096) / 146097
  let doe : Int := z - era * 146097
  let yoe : Int := (doe - doe / 1460 + doe / 36524 - doe / 146096) / 365
  let y : Int := yoe + era * 400
  let doy : Int := doe - (365 * yoe + yoe / 4 - yoe / 100)
  let mp : Int := (5 * doy + 2) / 153
  let d : Int := doy - (153 * mp + 2) / 5 + 1
  let m : Int := mp + (if mp < 10 then 3 else -9)
  (if m ≤ 2 then y + 1 else y, m, d)

/-- The fixed UTC+7 offset, `FixedOffset::east(7 * 3600)`, in seconds. -/
def utc7 : Int := 7 * 3600

/-- ParseError, standing for `chrono::ParseError` (and, for the search
response, `serde_json::Error`): the embedding only tracks that a
recoverable error value was returned. -/
inductive ParseError where
  | invalid
deriving DecidableEq

/-- UTC instant for a civil date at the start-of-day or end-of-day
boundary in the fixed UTC+7 offset: the source's
`offset.ymd(y, m, d).and_hms(0, 0, 0)` / `and_hms(23, 59, 59)`
followed by `.with_timezone(&Utc)`. -/
def boundInstant (c : Civil) (start_of_day : Bool) : Int :=
  let hms : Int := if start_of_day then 0 else 23 * 3600 + 59 * 60 + 59
  daysFromCivil c * 86400 + hms - utc7

/-- Embedding of `parse_date(date_str, start_of_day)`.  The clock read
`Utc::now().date_naive()` is passed in as `today`; it is consulted only
when `date_str` is empty.  A nonempty string is parsed strictly as
`%Y-%m-%d`, any parse failure propagating as a `ParseError`. -/
def parse_date (date_str : String) (start_of_day : Bool) (today : Civil) :
    Except ParseError Int :=
  if date_str = "" then .ok (boundInstant today start_of_day)
  else
    match parseYMD date_str with
    | some c => .ok (boundInstant c start_of_day)
    | none => .error .invalid

/-- Decimal digit character. -/
def digitChar (n : Nat) : Char := Char.ofNat (48 + n)

/-- Decimal rendering of a natural number as a character list, with a
structural fuel argument (any fuel above the digit count is enough). -/
def natStrLAux : Nat → Nat → List Char
  | 0, _ => []
  | fuel + 1, n =>
    if n < 10 then [digitChar n]
    else natStrLAux fuel (n / 10) ++ [digitChar (n % 10)]

/-- Decimal rendering of a natural number as a character list. -/
def natStrL (n : Nat) : List Char := natStrLAux (n + 1) n

/-- Decimal rendering of a natural number as a string. -/
def natStr (n : Nat) : String := ⟨natStrL n⟩

/-- Decimal rendering of an integer. -/
def intStr (n : Int) : String :=
  if n < 0 then "-" ++ natStr (-n).toNat else natStr n.toNat

/-- Zero-pad to width 2, as `chrono`'s `%m`, `%d`, `%H`, `%M`, `%S`. -/
def pad2 (n : Int) : String :=
  if 0 ≤ n ∧ n < 10 then "0" ++ intStr n else intStr n

/-- Zero-pad to width 4, as `chrono`'s `%Y`. -/
def pad4 (n : Int) : String :=
  if 0 ≤ n ∧ n < 10 then "000" ++ intStr n
  else if 0 ≤ n ∧ n < 100 then "00" ++ intStr n
  else if 0 ≤ n ∧ n < 1000 then "0" ++ intStr n
  else intStr n

/-- Time-of-day component `%H:%M:%S` of an instant rendered in a fixed
offset: the trailing part of `format("%Y-%m-%d %H:%M:%S")` after
`.with_timezone(&offset)`. -/
def timePartInOffset (t offsetSecs : Int) : String :=
  let tod := (t + offsetSecs) % 86400
  pad2 (tod / 3600) ++ ":" ++ pad2 (tod % 3600 / 60) ++ ":" ++ pad2 (tod % 60)

/-- Date component `%Y-%m-%d` of an instant rendered in a fixed offset. -/
def datePartInOffset (t offsetSecs : Int) : String :=
  let c := civilFromDays ((t + offsetSecs) / 86400)
  pad4 c.1 ++ "-" ++ pad2 c.2.1 ++ "-" ++ pad2 c.2.2

/-- Rendering of an instant with `DATE_FORMAT = "%Y-%m-%d %H:%M:%S"` in
a fixed offset, as used for `doc_date_from` / `doc_date_to`. -/
def formatDateTimeInOffset (t offsetSecs : Int) : String :=
  datePartInOffset t offsetSecs ++ " " ++ timePartInOffset t offsetSecs

/-- Rendering of an instant with `ONLY_DATE_FORMAT = "%Y%m%d"` in a
fixed offset, as used for `doc_only_date_from` / `doc_only_date_to`. -/
def formatCompactDateInOffset (t offsetSecs : Int) : String :=
  let c := civilFromDays ((t + offsetSecs) / 86400)
  pad4 c.1 ++ pad2 c.2.1 ++ pad2 c.2.2

/-- JSON values, embedding `serde_json::Value`.  Objects are ordered
association lists of key/value pairs, in the order the `json!` literal
writes them. -/
inductive Json where
  | null
  | bool (b : Bool)
  | num (n : Int)
  | str (s : String)
  | arr (xs : List Json)
  | obj (fields : List (String × Json))

/-- String indexing `value["key"]` on a `serde_json::Value`: on an
object, the value at the key if present; `Value::Null` when the key is
missing or the value is not an object. -/
def Json.index (j : Json) (k : String) : Json :=
  match j with
  | .obj fields =>
    match fields.lookup k with
    | some v => v
    | none => .null
  | _ => .null

/-- Model of `Value::as_array`: `some` of the element list exactly when
the value is an array. -/
def Json.asArray : Json → Option (List Json)
  | .arr xs => some xs
  | _ => none

/-- Whether an object value carries the given key (false on any
non-object value). -/
def Json.hasKey (j : Json) (k : String) : Bool :=
  match j with
  | .obj fields => (fields.lookup k).isSome
  | _ => false

/-- One hexadecimal digit character. -/
def hexDigit (n : Nat) : Char :=
  if n < 10 then Char.ofNat (48 + n) else Char.ofNat (87 + n)

/-- Escaping of a character inside a JSON string literal, as
`serde_json`'s compact serializer writes it. -/
def escapeJsonChar (c : Char) : List Char :=
  if c = '"' then ['\\', '"']
  else if c = '\\' then ['\\', '\\']
  else if c = '\n' then ['\\', 'n']
  else if c = '\t' then ['\\', 't']
  else if c = '\r' then ['\\', 'r']
  else if c.toNat < 32 then
    ['\\', 'u', '0', '0', hexDigit (c.toNat / 16), hexDigit (c.toNat % 16)]
  else [c]

/-- Escaped body of a JSON string literal. -/
def escapeJsonString (s : String) : String :=
  ⟨s.data.flatMap escapeJsonChar⟩

mutual

/-- Compact JSON serialization of a value, embedding both
`serde_json::to_string` and the `Display` rendering used by the
progress `println!`. -/
def Json.render : Json → String
  | .null => "null"
  | .bool b => if b then "true" else "false"
  | .num n => intStr n
  | .str s => "\"" ++ escapeJsonString s ++ "\""
  | .arr xs => "[" ++ Json.renderList xs ++ "]"
  | .obj fields => "\x7b" ++ Json.renderObj fields ++ "\x7d"

/-- Comma-separated serialization of array elements. -/
def Json.renderList : List Json → String
  | [] => ""
  | [x] => Json.render x
  | x :: y :: xs => Json.render x ++ "," ++ Json.renderList (y :: xs)

/-- Comma-separated serialization of object members. -/
def Json.renderObj : List (String × Json) → String
  | [] => ""
  | [(k, v)] => "\"" ++ escapeJsonString k ++ "\":" ++ Json.render v
  | (k, v) :: f :: fs =>
    "\"" ++ escapeJsonString k ++ "\":" ++ Json.render v ++ "," ++
      Json.renderObj (f :: fs)

end

/-- Progress line printed for one record of the reprint list:
`println!("docDate: {}, docNo: {}, fileName: {}", item["docDate"],
item["docNo"], item["fileName"])`, where `Display` for `Value` renders
compact JSON. -/
def progressLine (item : Json) : String :=
  "docDate: " ++ (item.index "docDate").render ++
    ", docNo: " ++ (item.index "docNo").render ++
    ", fileName: " ++ (item.index "fileName").render

/-- Projection of one reprint-list record into the narrower download
record, the `json!` object literal of `parse_search_response`. -/
def projectRecord (item : Json) : Json :=
  .obj [("invoiceHdr_id", item.index "invoiceHdrId"),
        ("docNo", item.index "docNo"),
        ("fileType", item.index "fileType"),
        ("filePathPDF", item.index "filePath"),
        ("fileNamePDF", item.index "fileName"),
        ("docType", item.index "docType")]

/-- Outcome of `parse_search_response`: a recoverable
`serde_json::Error` from `from_str`, a panic from
`.as_array().unwrap()`, or success carrying the printed progress lines
and the serialized `listfile` array. -/
inductive SearchParseResult where
  | parseError (e : ParseError)
  | panicked
  | ok (lines : List String) (listfileJson : String)
deriving DecidableEq

/-- Embedding of `parse_search_response(response_body)`.  The external
`serde_json::from_str` call is modelled by its outcome `parsed`: a
malformed body arrives as `.error e` and propagates as the function's
recoverable error; otherwise `json_data["reprintList"].as_array()
.unwrap()` panics unless the field is an array, and each record is
printed and projected, the result serialized with
`serde_json::to_string` (infallible on these values). -/
def parse_search_response (parsed : Except ParseError Json) :
    SearchParseResult :=
  match parsed with
  | .error e => .parseError e
  | .ok json_data =>
    match (json_data.index "reprintList").asArray with
    | none => .panicked
    | some data =>
      .ok (data.map progressLine)
        (Json.render (.arr (data.map projectRecord)))

/-- Insertion into the form-parameter map, modelling
`HashMap::insert`: replaces the value at an existing key, otherwise
adds the pair. -/
def insertParam (m : List (String × String)) (k v : String) :
    List (String × String) :=
  if m.any (fun p => p.1 == k) then
    m.map (fun p => if p.1 == k then (k, v) else p)
  else m ++ [(k, v)]

/-- Form parameters of the search POST built by `fetch_tax_documents`:
the four `params.insert` calls on an empty map. -/
def fetchParams (tax_id doc_date_from doc_date_to : String) :
    List (String × String) :=
  insertParam
    (insertParam
      (insertParam
        (insertParam [] "taxId" tax_id)
        "docDateFrom" doc_date_from)
      "docDateTo" doc_date_to)
    "smartCardNo" "null"

/-- Text parts of the multipart download POST built by
`download_zip_file`: `.text("listfile", listfile_json).text("type",
"PDF")`. -/
def downloadParts (listfile_json : String) : List (String × String) :=
  [("listfile", listfile_json), ("type", "PDF")]

/-- Wall-clock reading of `Local::now()`, used only for the generated
filename timestamp. -/
structure LocalClock where
  y : Nat
  mo : Nat
  d : Nat
  h : Nat
  mi : Nat
  s : Nat
deriving DecidableEq

/-- Rendering of `Local::now().format("%Y%m%d%H%M%S")`. -/
def formatStamp (c : LocalClock) : String :=
  pad4 (c.y : Int) ++ pad2 (c.mo : Int) ++ pad2 (c.d : Int) ++
    pad2 (c.h : Int) ++ pad2 (c.mi : Int) ++ pad2 (c.s : Int)

/-- Output filename chosen by `download_zip_file`: the custom name when
supplied, otherwise
`TaxDocuments_<taxID>_<from>_<to>_<YYYYMMDDHHMMSS>.zip`. -/
def zipFilename (tax_id doc_date_from doc_date_to : String)
    (custom_filename : Option String) (now : LocalClock) : String :=
  match custom_filename with
  | some name => name
  | none =>
    "TaxDocuments_" ++ tax_id ++ "_" ++ doc_date_from ++ "_" ++
      doc_date_to ++ "_" ++ formatStamp now ++ ".zip"

/-- Observable effects of a run: the search POST (its form parameters),
a printed line, the download POST (its multipart text parts), and a
file write. -/
inductive Effect where
  | searchReq (params : List (String × String))
  | printLine (s : String)
  | downloadReq (parts : List (String × String))
  | writeFile (name : String) (content : List Nat)
deriving DecidableEq

/-- Whether an effect is the search request. -/
def Effect.isSearch : Effect → Bool
  | .searchReq _ => true
  | _ => false

/-- Whether an effect is the download request. -/
def Effect.isDownload : Effect → Bool
  | .downloadReq _ => true
  | _ => false

/-- Whether an effect is a file write. -/
def Effect.isWrite : Effect → Bool
  | .writeFile _ _ => true
  | _ => false

/-- Whether an effect is a printed line. -/
def Effect.isPrint : Effect → Bool
  | .printLine _ => true
  | _ => false

/-- Command-line arguments after `clap` matching: required `taxID`,
`since`/`until` defaulting to the empty string, the `--no-download`
flag, and the optional custom filename. -/
structure Args where
  taxId : String
  sinceStr : String
  untilStr : String
  noDownload : Bool
  filename : Option String
deriving DecidableEq

/-- Environment of one run: today's date (`Utc::now().date_naive()`),
the local wall clock (`Local::now()`), the parse outcome of the search
response body, and the bytes of the download response. -/
structure Env where
  today : Civil
  nowClock : LocalClock
  searchParsed : Except ParseError Json
  downloadBytes : List Nat

/-- Outcome of `main`: clean exit, propagated recoverable error, or
panic (from the `unwrap` in `parse_search_response`). -/
inductive MainResult where
  | ok
  | errParse (e : ParseError)
  | panicked
deriving DecidableEq

/-- Effects of `download_zip_file(listfile_json, tax_id,
doc_date_from, doc_date_to, custom_filename)`: the multipart POST, the
file write, and the success line. -/
def download_zip_file (listfile_json tax_id doc_date_from doc_date_to :
    String) (custom_filename : Option String) (env : Env) : List Effect :=
  [.downloadReq (downloadParts listfile_json),
   .writeFile (zipFilename tax_id doc_date_from doc_date_to
     custom_filename env.nowClock) env.downloadBytes,
   .printLine "Zip file downloaded successfully."]

/-- Embedding of `main`: resolve both dates (each `?` aborting with no
effects), render them in UTC+7, issue the search POST, map the
response, and unless `--no-download` was given run the download step.
Returns the effect trace and the outcome. -/
def mainRun (args : Args) (env : Env) : List Effect × MainResult :=
  match parse_date args.sinceStr true env.today with
  | .error e => ([], .errParse e)
  | .ok since_date =>
    match parse_date args.untilStr false env.today with
    | .error e => ([], .errParse e)
    | .ok until_date =>
      let doc_date_from := formatDateTimeInOffset since_date utc7
      let doc_date_to := formatDateTimeInOffset until_date utc7
      let doc_only_date_from := formatCompactDateInOffset since_date utc7
      let doc_only_date_to := formatCompactDateInOffset until_date utc7
      let searchEffect :=
        Effect.searchReq (fetchParams args.taxId doc_date_from doc_date_to)
      match parse_search_response env.searchParsed with
      | .parseError e => ([searchEffect], .errParse e)
      | .panicked => ([searchEffect], .panicked)
      | .ok lines listfileJson =>
        let printed := lines.map Effect.printLine
        if args.noDownload then
          (searchEffect :: printed, .ok)
        else
          (searchEffect :: printed ++
            download_zip_file listfileJson args.taxId doc_only_date_from
              doc_only_date_to args.filename env, .ok)

theorem parseYMD_empty : parseYMD "" = none := by
  decide

theorem timePartInOffset_eq (t offsetSecs r : Int)
    (h : (t + offsetSecs) % 86400 = r) :
    timePartInOffset t offsetSecs =
      pad2 (r / 3600) ++ ":" ++ pad2 (r % 3600 / 60) ++ ":" ++ pad2 (r % 60) := by
  show pad2 ((t + offsetSecs) % 86400 / 3600) ++ ":" ++
      pad2 ((t + offsetSecs) % 86400 % 3600 / 60) ++ ":" ++
      pad2 ((t + offsetSecs) % 86400 % 60) = _
  rw [h]

theorem timePart_bound (c : Civil) (b : Bool) :
    timePartInOffset (boundInstant c b) utc7 =
      if b then "00:00:00" else "23:59:59" := by
  cases b with
  | false =>
    have h : (boundInstant c false + utc7) % 86400 = 86399 := by
      show (daysFromCivil c * 86400 +
        (if False then (0 : Int) else 23 * 3600 + 59 * 60 + 59) -
          7 * 3600 + 7 * 3600) % 86400 = 86399
      simp only [if_false]
      omega
    rw [timePartInOffset_eq _ _ _ h]
    decide
  | true =>
    have h : (boundInstant c true + utc7) % 86400 = 0 := by
      show (daysFromCivil c * 86400 +
        (if True then (0 : Int) else 23 * 3600 + 59 * 60 + 59) -
          7 * 3600 + 7 * 3600) % 86400 = 0
      simp only [if_true]
      omega
    rw [timePartInOffset_eq _ _ _ h]
    decide

theorem parse_date_of_parseYMD (s : String) (c : Civil) (b : Bool)
    (today : Civil) (h : parseYMD s = some c) :
    parse_date s b today = .ok (boundInstant c b) := by
  have hne : ¬ s = "" := by
    intro he
    rw [he, parseYMD_empty] at h
    exact Option.noConfusion h
  simp [parse_date, hne, h]

/-- C7: the search POST built by `fetch_tax_documents` carries exactly
the form fields `taxId`, `docDateFrom`, `docDateTo` and the constant
`smartCardNo = "null"`, and the download POST built by
`download_zip_file` carries exactly the text parts `listfile` (the
mapped JSON array string) and the constant `type = "PDF"`. -/
theorem request_field_sets (tax_id doc_date_from doc_date_to body : String) :
    fetchParams tax_id doc_date_from doc_date_to =
      [("taxId", tax_id), ("docDateFrom", doc_date_from),
       ("docDateTo", doc_date_to), ("smartCardNo", "null")] ∧
    downloadParts body = [("listfile", body), ("type", "PDF")] := by
  constructor
  · rfl
  · rfl

/-- C8: an empty date string resolves to the current calendar date
(`today`), and the resulting instant obeys the same start-of-day /
end-of-day boundary and UTC+7 rendering rules (`boundInstant`) as an
explicitly supplied date: its time component rendered in UTC+7 is
`00:00:00` for the start-of-day flag and `23:59:59` otherwise. -/
theorem parse_date_empty_uses_today (today : Civil) (b : Bool) :
    parse_date "" b today = .ok (boundInstant today b) ∧
    timePartInOffset (boundInstant today b) utc7 =
      (if b then "00:00:00" else "23:59:59") := by
  exact ⟨rfl, timePart_bound today b⟩

/-- C10: for a nonempty date string the result of `parse_date` depends
only on the string and the boundary flag, not on the clock reading
`today`: runs at two different current dates return equal instants. -/
theorem parse_date_clock_independent (s : String) (b : Bool)
    (t1 t2 : Civil) (h : s ≠ "") :
    parse_date s b t1 = parse_date s b t2 := by
  simp only [parse_date, if_neg h]

/-- C10 witness: the theorem applied at the string "2024-01-01" and two
different clock readings. -/
theorem parse_date_clock_independent_witness :
    parse_date "2024-01-01" true ⟨2020, 1, 1⟩ =
      parse_date "2024-01-01" true ⟨2031, 12, 31⟩ :=
  parse_date_clock_independent "2024-01-01" true ⟨2020, 1, 1⟩
    ⟨2031, 12, 31⟩ (by decide)

/-- C3: a search body whose `reprintList` field is absent or not an
array makes `parse_search_response` panic (the `.as_array().unwrap()`),
never returning an empty or partial result, while a malformed
(non-JSON) body — a `from_str` failure — returns the recoverable
`ParseError`. -/
theorem searchResponse_missing_list_panics :
    (∀ e : ParseError, parse_search_response (.error e) = .parseError e) ∧
    (∀ j : Json, (j.index "reprintList").asArray = none →
      parse_search_response (.ok j) = .panicked) := by
  constructor
  · intro e
    rfl
  · intro j h
    simp [parse_search_response, h]

/-- C3 witness: the theorem applied to a malformed body and to a body
whose `reprintList` is a string rather than an array. -/
theorem searchResponse_missing_list_panics_witness :
    parse_search_response (.error .invalid) = .parseError .invalid ∧
    parse_search_response (.ok (.obj [("reprintList", .str "x")])) =
      .panicked :=
  ⟨searchResponse_missing_list_panics.1 .invalid,
    searchResponse_missing_list_panics.2 (.obj [("reprintList", .str "x")]) rfl⟩

/-- C1: for every valid `YYYY-MM-DD` string the Date Resolver yields,
for the "since" bound (start-of-day flag), an instant whose time
component rendered in the fixed UTC+7 offset is `00:00:00`, and for the
"until" bound an instant whose rendered time component is `23:59:59`;
the boundary is chosen by the flag alone (the embedding consults no
local timezone), and `main` proceeds to the search request for any pair
of resolved bounds, with no validation that since ≤ until. -/
theorem dateResolver_boundaries (s : String) (c today : Civil)
    (h : parseYMD s = some c) :
    (parse_date s true today = .ok (boundInstant c true) ∧
      timePartInOffset (boundInstant c true) utc7 = "00:00:00") ∧
    (parse_date s false today = .ok (boundInstant c false) ∧
      timePartInOffset (boundInstant c false) utc7 = "23:59:59") ∧
    (∀ (args : Args) (env : Env) (ts tu : Int),
      parse_date args.sinceStr true env.today = .ok ts →
      parse_date args.untilStr false env.today = .ok tu →
      ∃ rest, (mainRun args env).1 =
        Effect.searchReq (fetchParams args.taxId
          (formatDateTimeInOffset ts utc7)
          (formatDateTimeInOffset tu utc7)) :: rest) := by
  refine ⟨⟨parse_date_of_parseYMD s c true today h, ?_⟩,
    ⟨parse_date_of_parseYMD s c false today h, ?_⟩, ?_⟩
  · simpa using timePart_bound c true
  · simpa using timePart_bound c false
  · intro args env ts tu hs hu
    cases hps : parse_search_response env.searchParsed with
    | parseError e => exact ⟨[], by simp [mainRun, hs, hu, hps]⟩
    | panicked => exact ⟨[], by simp [mainRun, hs, hu, hps]⟩
    | ok lines out =>
      cases hnd : args.noDownload with
      | true =>
        exact ⟨lines.map Effect.printLine,
          by simp [mainRun, hs, hu, hps, hnd]⟩
      | false =>
        exact ⟨lines.map Effect.printLine ++
          download_zip_file out args.taxId
            (formatCompactDateInOffset ts utc7)
            (formatCompactDateInOffset tu utc7) args.filename env,
          by simp [mainRun, hs, hu, hps, hnd]⟩

/-- C1 witness: the theorem applied at the date string "2024-01-15"
and an unrelated clock reading. -/
theorem dateResolver_boundaries_witness :
    parse_date "2024-01-15" true ⟨2030, 5, 5⟩ =
      .ok (boundInstant ⟨2024, 1, 15⟩ true) ∧
    timePartInOffset (boundInstant ⟨2024, 1, 15⟩ true) utc7 = "00:00:00" :=
  (dateResolver_boundaries "2024-01-15" ⟨2024, 1, 15⟩ ⟨2030, 5, 5⟩
    (by decide)).1

/-- C4: a nonempty date string that fails the strict `%Y-%m-%d` parse
makes `parse_date` return a `ParseError`, and since both dates are
resolved before `fetch_tax_documents` is ever called, the run produces
an empty effect trace: no network request is issued. -/
theorem malformed_date_no_network (args : Args) (env : Env)
    (h : (args.sinceStr ≠ "" ∧ parseYMD args.sinceStr = none) ∨
      (args.untilStr ≠ "" ∧ parseYMD args.untilStr = none)) :
    (parse_date args.sinceStr true env.today = .error .invalid ∨
      parse_date args.untilStr false env.today = .error .invalid) ∧
    mainRun args env = ([], .errParse .invalid) := by
  have herr : ∀ (s : String) (b : Bool), s ≠ "" → parseYMD s = none →
      parse_date s b env.today = .error .invalid := by
    intro s b hne hp
    simp [parse_date, hne, hp]
  rcases h with ⟨hne, hp⟩ | ⟨hne, hp⟩
  · have hs := herr _ true hne hp
    exact ⟨.inl hs, by simp [mainRun, hs]⟩
  · have hu := herr _ false hne hp
    refine ⟨.inr hu, ?_⟩
    cases hs : parse_date args.sinceStr true env.today with
    | error e => cases e; simp [mainRun, hs]
    | ok t => simp [mainRun, hs, hu]

/-- C4 witness: the theorem applied to the malformed date "2024-13-40";
the run's effect trace is empty. -/
theorem malformed_date_no_network_witness :
    (parse_date "2024-13-40" true ⟨2030, 5, 5⟩ = .error .invalid ∨
      parse_date "" false ⟨2030, 5, 5⟩ = .error .invalid) ∧
    mainRun ⟨"123", "2024-13-40", "", false, none⟩
        ⟨⟨2030, 5, 5⟩, ⟨2024, 1, 2, 3, 4, 5⟩, .ok .null, []⟩ =
      ([], .errParse .invalid) :=
  malformed_date_no_network ⟨"123", "2024-13-40", "", false, none⟩
    ⟨⟨2030, 5, 5⟩, ⟨2024, 1, 2, 3, 4, 5⟩, .ok .null, []⟩
    (.inl ⟨by decide, by decide⟩)

/-- C2: on a body whose `reprintList` is an array of N records the
Response Mapper returns the serialization of an array of exactly N
elements, where element i is the object with exactly the keys
`invoiceHdr_id`, `docNo`, `fileType`, `filePathPDF`, `fileNamePDF`,
`docType`, their values copied verbatim from the keys `invoiceHdrId`,
`docNo`, `fileType`, `filePath`, `fileName`, `docType` of input record
i, in that order. -/
theorem responseMapper_projection (j : Json) (data : List Json)
    (h : j.index "reprintList" = .arr data) :
    parse_search_response (.ok j) =
      .ok (data.map progressLine)
        (Json.render (.arr (data.map projectRecord))) ∧
    (data.map projectRecord).length = data.length ∧
    ∀ i (hi : i < data.length),
      (data.map projectRecord).get ⟨i, by simpa using hi⟩ =
        .obj [("invoiceHdr_id", (data.get ⟨i, hi⟩).index "invoiceHdrId"),
              ("docNo", (data.get ⟨i, hi⟩).index "docNo"),
              ("fileType", (data.get ⟨i, hi⟩).index "fileType"),
              ("filePathPDF", (data.get ⟨i, hi⟩).index "filePath"),
              ("fileNamePDF", (data.get ⟨i, hi⟩).index "fileName"),
              ("docType", (data.get ⟨i, hi⟩).index "docType")] := by
  refine ⟨?_, by simp, ?_⟩
  · simp [parse_search_response, h, Json.asArray]
  · intro i hi
    simp only [List.get_eq_getElem, List.getElem_map]
    rfl

/-- C2 witness: the theorem applied to a two-record reprint list. -/
theorem responseMapper_projection_witness :
    parse_search_response (.ok (.obj [("reprintList", .arr
        [.obj [("invoiceHdrId", .num 7), ("docNo", .str "D1"),
               ("fileType", .str "P"), ("filePath", .str "/p"),
               ("fileName", .str "f.pdf"), ("docType", .str "T")],
         .obj [("docNo", .str "D2")]])])) =
      .ok ([.obj [("invoiceHdrId", .num 7), ("docNo", .str "D1"),
               ("fileType", .str "P"), ("filePath", .str "/p"),
               ("fileName", .str "f.pdf"), ("docType", .str "T")],
            .obj [("docNo", .str "D2")]].map progressLine)
        (Json.render (.arr ([.obj [("invoiceHdrId", .num 7),
               ("docNo", .str "D1"), ("fileType", .str "P"),
               ("filePath", .str "/p"), ("fileName", .str "f.pdf"),
               ("docType", .str "T")],
            .obj [("docNo", .str "D2")]].map projectRecord))) :=
  (responseMapper_projection
    (.obj [("reprintList", .arr
      [.obj [("invoiceHdrId", .num 7), ("docNo", .str "D1"),
             ("fileType", .str "P"), ("filePath", .str "/p"),
             ("fileName", .str "f.pdf"), ("docType", .str "T")],
       .obj [("docNo", .str "D2")]])])
    [.obj [("invoiceHdrId", .num 7), ("docNo", .str "D1"),
           ("fileType", .str "P"), ("filePath", .str "/p"),
           ("fileName", .str "f.pdf"), ("docType", .str "T")],
     .obj [("docNo", .str "D2")]] rfl).1

/-- C9: the per-record projection never raises an error over arbitrary
JSON values: whenever `reprintList` is an array, the mapper succeeds on
every element, and any source key that is absent from a record (in
particular on non-object records) is read as JSON `null`, so it appears
as `null` in the projected output object. -/
theorem responseMapper_total (j : Json) (data : List Json)
    (h : j.index "reprintList" = .arr data) :
    (∃ lines out, parse_search_response (.ok j) = .ok lines out) ∧
    (∀ (item : Json) (k : String), item.hasKey k = false →
      item.index k = .null) ∧
    (∀ item : Json, projectRecord item =
      .obj [("invoiceHdr_id", item.index "invoiceHdrId"),
            ("docNo", item.index "docNo"),
            ("fileType", item.index "fileType"),
            ("filePathPDF", item.index "filePath"),
            ("fileNamePDF", item.index "fileName"),
            ("docType", item.index "docType")]) := by
  refine ⟨⟨data.map progressLine,
    Json.render (.arr (data.map projectRecord)),
    by simp [parse_search_response, h, Json.asArray]⟩,
    ?_, fun item => rfl⟩
  intro item k hk
  cases item with
  | obj fields =>
    have hnone : fields.lookup k = none := by
      cases hl : fields.lookup k with
      | none => rfl
      | some v =>
        rw [Json.hasKey, hl] at hk
        exact absurd hk (by simp)
    simp [Json.index, hnone]
  | null => rfl
  | bool b => rfl
  | num n => rfl
  | str s => rfl
  | arr xs => rfl

/-- C9 witness: the theorem applied to a reprint list holding a
non-object record and an empty object; a key missing from a record is
read as `null`. -/
theorem responseMapper_total_witness :
    (∃ lines out, parse_search_response
      (.ok (.obj [("reprintList", .arr [.num 5, .obj []])])) =
        .ok lines out) ∧
    (Json.num 5).index "docNo" = .null :=
  ⟨(responseMapper_total (.obj [("reprintList", .arr [.num 5, .obj []])])
      [.num 5, .obj []] rfl).1,
    (responseMapper_total (.obj [("reprintList", .arr [.num 5, .obj []])])
      [.num 5, .obj []] rfl).2.1 (.num 5) "docNo" rfl⟩

theorem printTrace_counts (lines : List String) :
    (lines.map Effect.printLine).countP Effect.isDownload = 0 ∧
    (lines.map Effect.printLine).countP Effect.isWrite = 0 ∧
    (lines.map Effect.printLine).countP Effect.isSearch = 0 ∧
    (lines.map Effect.printLine).countP Effect.isPrint = lines.length := by
  induction lines with
  | nil => simp
  | cons a l ih =>
    simp only [List.map_cons, List.countP_cons]
    simp [Effect.isDownload, Effect.isWrite, Effect.isSearch,
      Effect.isPrint, ih.1, ih.2.1, ih.2.2.1, ih.2.2.2]

/-- C5: with `--no-download` set, the run issues exactly one search
request, prints one progress line per returned record, issues zero
download requests and writes no file; with the flag absent, the trace
additionally carries exactly one download request (with its file write
and confirmation line) after the search. -/
theorem noDownload_flag (args : Args) (env : Env) (ts tu : Int)
    (j : Json) (data : List Json)
    (hs : parse_date args.sinceStr true env.today = .ok ts)
    (hu : parse_date args.untilStr false env.today = .ok tu)
    (hj : env.searchParsed = .ok j)
    (hd : j.index "reprintList" = .arr data) :
    (args.noDownload = true →
      (mainRun args env).1 =
        Effect.searchReq (fetchParams args.taxId
            (formatDateTimeInOffset ts utc7)
            (formatDateTimeInOffset tu utc7)) ::
          (data.map progressLine).map Effect.printLine ∧
      (mainRun args env).1.countP Effect.isDownload = 0 ∧
      (mainRun args env).1.countP Effect.isWrite = 0 ∧
      (mainRun args env).1.countP Effect.isSearch = 1 ∧
      (mainRun args env).1.countP Effect.isPrint = data.length ∧
      (mainRun args env).2 = .ok) ∧
    (args.noDownload = false →
      (mainRun args env).1 =
        Effect.searchReq (fetchParams args.taxId
            (formatDateTimeInOffset ts utc7)
            (formatDateTimeInOffset tu utc7)) ::
          (data.map progressLine).map Effect.printLine ++
          download_zip_file (Json.render (.arr (data.map projectRecord)))
            args.taxId (formatCompactDateInOffset ts utc7)
            (formatCompactDateInOffset tu utc7) args.filename env ∧
      (mainRun args env).1.countP Effect.isDownload = 1) := by
  have hps : parse_search_response env.searchParsed =
      .ok (data.map progressLine)
        (Json.render (.arr (data.map projectRecord))) := by
    rw [hj]
    simp [parse_search_response, hd, Json.asArray]
  have hc := printTrace_counts (data.map progressLine)
  constructor
  · intro hnd
    have hm : mainRun args env =
        (Effect.searchReq (fetchParams args.taxId
            (formatDateTimeInOffset ts utc7)
            (formatDateTimeInOffset tu utc7)) ::
          (data.map progressLine).map Effect.printLine, .ok) := by
      simp [mainRun, hs, hu, hps, hnd]
    rw [hm]
    refine ⟨rfl, ?_, ?_, ?_, ?_, rfl⟩
    · simp [List.countP_cons, Effect.isDownload, hc.1]
    · simp [List.countP_cons, Effect.isWrite, hc.2.1]
    · simp [List.countP_cons, Effect.isSearch, hc.2.2.1]
    · simp [List.countP_cons, Effect.isPrint, hc.2.2.2]
  · intro hnd
    have hm : mainRun args env =
        (Effect.searchReq (fetchParams args.taxId
            (formatDateTimeInOffset ts utc7)
            (formatDateTimeInOffset tu utc7)) ::
          (data.map progressLine).map Effect.printLine ++
          download_zip_file (Json.render (.arr (data.map projectRecord)))
            args.taxId (formatCompactDateInOffset ts utc7)
            (formatCompactDateInOffset tu utc7) args.filename env,
          .ok) := by
      simp [mainRun, hs, hu, hps, hnd]
    rw [hm]
    refine ⟨rfl, ?_⟩
    simp [List.countP_cons, List.countP_append, download_zip_file,
      Effect.isDownload, hc.1]

/-- C5 witness: the theorem applied to a concrete run with
`--no-download` set and a one-record response: one search, one progress
line, no download, no file write. -/
theorem noDownload_flag_witness :
    (mainRun ⟨"123", "2024-01-01", "2024-01-31", true, none⟩
        ⟨⟨2030, 5, 5⟩, ⟨2024, 1, 2, 3, 4, 5⟩,
          .ok (.obj [("reprintList", .arr [.obj [("docNo", .str "D1")]])]),
          [9]⟩).1.countP Effect.isDownload = 0 ∧
    (mainRun ⟨"123", "2024-01-01", "2024-01-31", true, none⟩
        ⟨⟨2030, 5, 5⟩, ⟨2024, 1, 2, 3, 4, 5⟩,
          .ok (.obj [("reprintList", .arr [.obj [("docNo", .str "D1")]])]),
          [9]⟩).1.countP Effect.isWrite = 0 ∧
    (mainRun ⟨"123", "2024-01-01", "2024-01-31", true, none⟩
        ⟨⟨2030, 5, 5⟩, ⟨2024, 1, 2, 3, 4, 5⟩,
          .ok (.obj [("reprintList", .arr [.obj [("docNo", .str "D1")]])]),
          [9]⟩).1.countP Effect.isSearch = 1 ∧
    (mainRun ⟨"123", "2024-01-01", "2024-01-31", true, none⟩
        ⟨⟨2030, 5, 5⟩, ⟨2024, 1, 2, 3, 4, 5⟩,
          .ok (.obj [("reprintList", .arr [.obj [("docNo", .str "D1")]])]),
          [9]⟩).1.countP Effect.isPrint = 1 := by
  have h := (noDownload_flag ⟨"123", "2024-01-01", "2024-01-31", true, none⟩
    ⟨⟨2030, 5, 5⟩, ⟨2024, 1, 2, 3, 4, 5⟩,
      .ok (.obj [("reprintList", .arr [.obj [("docNo", .str "D1")]])]), [9]⟩
    (boundInstant ⟨2024, 1, 1⟩ true) (boundInstant ⟨2024, 1, 31⟩ false)
    (.obj [("reprintList", .arr [.obj [("docNo", .str "D1")]])])
    [.obj [("docNo", .str "D1")]] rfl rfl rfl rfl).1 rfl
  exact ⟨h.2.1, h.2.2.1, h.2.2.2.1, h.2.2.2.2.1⟩

theorem natStrLAux_small (fuel n : Nat) (hf : 0 < fuel) (h : n < 10) :
    natStrLAux fuel n = [digitChar n] := by
  cases fuel with
  | zero => omega
  | succ f => simp [natStrLAux, h]

theorem natStrLAux_step (fuel n : Nat) (hf : 0 < fuel) (h : ¬ n < 10) :
    natStrLAux fuel n =
      natStrLAux (fuel - 1) (n / 10) ++ [digitChar (n % 10)] := by
  cases fuel with
  | zero => omega
  | succ f => simp [natStrLAux, h]

theorem natStrL_length_two (n : Nat) (h1 : 10 ≤ n) (h2 : n ≤ 99) :
    (natStrL n).length = 2 := by
  rw [natStrL, natStrLAux_step (n + 1) n (by omega) (by omega),
    natStrLAux_small (n + 1 - 1) (n / 10) (by omega) (by omega)]
  simp

theorem natStrL_length_four (n : Nat) (h1 : 1000 ≤ n) (h2 : n ≤ 9999) :
    (natStrL n).length = 4 := by
  rw [natStrL, natStrLAux_step (n + 1) n (by omega) (by omega),
    natStrLAux_step (n + 1 - 1) (n / 10) (by omega) (by omega),
    natStrLAux_step (n + 1 - 1 - 1) (n / 10 / 10) (by omega) (by omega),
    natStrLAux_small (n + 1 - 1 - 1 - 1) (n / 10 / 10 / 10) (by omega)
      (by omega)]
  simp

theorem intStr_length_one (n : Int) (h0 : 0 ≤ n) (h : n < 10) :
    (intStr n).length = 1 := by
  rw [intStr, if_neg (by omega)]
  show (natStrL n.toNat).length = 1
  rw [natStrL, natStrLAux_small _ _ (by omega) (by omega)]
  rfl

theorem intStr_length_two (n : Int) (h0 : 10 ≤ n) (h : n ≤ 99) :
    (intStr n).length = 2 := by
  rw [intStr, if_neg (by omega)]
  show (natStrL n.toNat).length = 2
  exact natStrL_length_two n.toNat (by omega) (by omega)

theorem intStr_length_four (n : Int) (h0 : 1000 ≤ n) (h : n ≤ 9999) :
    (intStr n).length = 4 := by
  rw [intStr, if_neg (by omega)]
  show (natStrL n.toNat).length = 4
  exact natStrL_length_four n.toNat (by omega) (by omega)

theorem pad2_length (n : Int) (h0 : 0 ≤ n) (h : n ≤ 99) :
    (pad2 n).length = 2 := by
  rw [pad2]
  by_cases hlt : 0 ≤ n ∧ n < 10
  · rw [if_pos hlt, String.length_append, intStr_length_one n h0 hlt.2]
    rfl
  · rw [if_neg hlt]
    exact intStr_length_two n (by omega) h

theorem pad4_length (n : Int) (h0 : 1000 ≤ n) (h : n ≤ 9999) :
    (pad4 n).length = 4 := by
  rw [pad4, if_neg (by omega), if_neg (by omega), if_neg (by omega)]
  exact intStr_length_four n h0 h

/-- C6: with no custom filename, `download_zip_file` writes to the name
`TaxDocuments_<taxID>_<compact from>_<compact to>_<timestamp>.zip`,
where the `%Y%m%d%H%M%S` timestamp of any in-range wall-clock reading
is exactly 14 digits long; a supplied custom filename is used
unchanged. -/
theorem zipFilename_format (tax_id doc_date_from doc_date_to name :
    String) (now : LocalClock)
    (hy : 1000 ≤ now.y ∧ now.y ≤ 9999) (hmo : 1 ≤ now.mo ∧ now.mo ≤ 12)
    (hd : 1 ≤ now.d ∧ now.d ≤ 31) (hh : now.h ≤ 23) (hmi : now.mi ≤ 59)
    (hs : now.s ≤ 59) :
    zipFilename tax_id doc_date_from doc_date_to none now =
      "TaxDocuments_" ++ tax_id ++ "_" ++ doc_date_from ++ "_" ++
        doc_date_to ++ "_" ++ formatStamp now ++ ".zip" ∧
    (formatStamp now).length = 14 ∧
    zipFilename tax_id doc_date_from doc_date_to (some name) now =
      name := by
  refine ⟨rfl, ?_, rfl⟩
  rw [formatStamp]
  rw [String.length_append, String.length_append, String.length_append,
    String.length_append, String.length_append]
  rw [pad4_length _ (by omega) (by omega),
    pad2_length (now.mo : Int) (by omega) (by omega),
    pad2_length (now.d : Int) (by omega) (by omega),
    pad2_length (now.h : Int) (by omega) (by omega),
    pad2_length (now.mi : Int) (by omega) (by omega),
    pad2_length (now.s : Int) (by omega) (by omega)]

/-- C6 witness: the theorem applied to the tax ID 1234567890123, the
compact dates of January 2024 and a concrete wall clock; the generated
timestamp has 14 digits. -/
theorem zipFilename_format_witness :
    zipFilename "1234567890123" "20240101" "20240131" none
        ⟨2024, 1, 2, 3, 4, 5⟩ =
      "TaxDocuments_" ++ "1234567890123" ++ "_" ++ "20240101" ++ "_" ++
        "20240131" ++ "_" ++ formatStamp ⟨2024, 1, 2, 3, 4, 5⟩ ++ ".zip" ∧
    (formatStamp ⟨2024, 1, 2, 3, 4, 5⟩).length = 14 ∧
    zipFilename "1234567890123" "20240101" "20240131" (some "c.zip")
        ⟨2024, 1, 2, 3, 4, 5⟩ = "c.zip" :=
  zipFilename_format "1234567890123" "20240101" "20240131" "c.zip"
    ⟨2024, 1, 2, 3, 4, 5⟩ (by decide) (by decide) (by decide) (by decide)
    (by decide) (by decide)

end Etax
